import Mathlib

/-!
# geonode: the GEOS wrapper-generating macros of `geonode.h`

A shallow embedding of the seven `GEONODE_GEOS_*` macros (geonode.h:14-138) and of the
part of the `Geometry` class they read (geonode.h:157-160).

* Native pointers are natural numbers, the null pointer is `0`.
* A `double` is carried as its 64-bit pattern; the macros only pass it along.
* The host heap is the list of wrapped `Geometry` objects; an object reference is an index.
* The native engine function `geosfn` of a macro instantiation is a parameter; every
  invocation is appended to `World.calls`, so that theorems can speak about whether and
  with which operands the engine was called.
* `ObjectWrap::Unwrap` on a value that is not a wrapped `Geometry` is outside the
  defined behaviour of the host API; a wrapper run that reaches it yields `none`.
-/

namespace Geonode

/-- A `GEOSGeometry *`. -/
abbrev GEOSGeometry := Nat

/-- A `const GEOSPreparedGeometry *`. -/
abbrev GEOSPreparedGeometry := Nat

/-- The null pointer. -/
def NULL : Nat := 0

/-- A C `double`, as its IEEE-754 binary64 bit pattern. -/
abbrev Double := Nat

/-- The quiet NaN the host yields when a value has no numeric reading. -/
def NaN : Double := 0x7FF8000000000000

/-- The two data members of `class Geometry` (geonode.h:159-160). -/
structure Geometry where
  geos_geom_ : GEOSGeometry
  geos_pg_ : GEOSPreparedGeometry
  deriving DecidableEq, Repr

/-- Host values that reach or leave the wrappers. -/
inductive Value where
  | undefined
  | boolean (b : Bool)
  | number (d : Double)
  | object (ref : Nat)
  deriving DecidableEq, Repr

/-- One invocation of the native engine function, with its operands in call order. -/
inductive EngineCall where
  | unary (g : GEOSGeometry)
  | unaryTolerance (g : GEOSGeometry) (tolerance : Double)
  | binary (g : GEOSGeometry) (other : GEOSGeometry)
  | binaryTolerance (g : GEOSGeometry) (other : GEOSGeometry) (tolerance : Double)
  | prepared (pg : GEOSPreparedGeometry) (other : GEOSGeometry)
  deriving DecidableEq, Repr

/-- The state a wrapper runs in: the wrapped `Geometry` objects of the host heap
(an object reference is an index into `heap`) and the log of engine invocations. -/
structure World where
  heap : List Geometry
  calls : List EngineCall
  deriving DecidableEq, Repr

/-- The host `Arguments` of a method call: the receiver and the positional arguments. -/
structure Arguments where
  This : Value
  argv : List Value
  deriving DecidableEq, Repr

/-- The host `AccessorInfo` of a property read: the holder object. -/
structure AccessorInfo where
  Holder : Value
  deriving DecidableEq, Repr

/-- How a wrapper hands control back to the host: a returned handle, or
`ThrowException(String::New(msg))`. -/
inductive Completion where
  | returned (v : Value)
  | threw (msg : String)
  deriving DecidableEq, Repr

/-- `args.Length()`. -/
def Arguments.Length (args : Arguments) : Nat := args.argv.length

/-- `args[i]`: the host yields `undefined` for an index past the end. -/
def Arguments.get (args : Arguments) (i : Nat) : Value := args.argv.getD i Value.undefined

/-- `v->NumberValue()`. -/
def Value.NumberValue : Value → Double
  | .number d => d
  | .boolean b => if b then 0x3FF0000000000000 else 0
  | .undefined => NaN
  | .object _ => NaN

/-- `ObjectWrap::Unwrap<Geometry>(v)` (for an argument, after `->ToObject()`): the
`Geometry` behind an object reference; `none` when the value wraps no `Geometry`. -/
def Unwrap (w : World) : Value → Option Geometry
  | .object ref => w.heap[ref]?
  | _ => none

/-- Appends an engine invocation to the log. -/
def World.record (w : World) (c : EngineCall) : World :=
  { w with calls := w.calls ++ [c] }

/-- Modelled from the spec: `Geometry::WrapNewGEOSGeometry` is declared at geonode.h:220 and
defined outside the given sources, as is the constructor `Geometry(GEOSGeometry*)`. The spec
says a topology operation "wraps the resulting new native handle in a new Geometry instance",
and that the prepared handle is optional and absent until first needed: the new wrapper owns
the given handle and has no prepared handle; it is allocated at the next free reference. -/
def WrapNewGEOSGeometry (w : World) (geos_geom : GEOSGeometry) : Value × World :=
  (Value.object w.heap.length,
    { w with heap := w.heap ++ [{ geos_geom_ := geos_geom, geos_pg_ := NULL }] })

/-- The macro `GEONODE_GEOS_UNARY_TOPOLOGY(cppmethod, jsmethod, geosfn)`, geonode.h:14-24. -/
def GEONODE_GEOS_UNARY_TOPOLOGY (jsmethod : String) (geosfn : GEOSGeometry → GEOSGeometry)
    (w : World) (info : AccessorInfo) : Option (Completion × World) :=
  match Unwrap w info.Holder with
  | none => none
  | some geom =>
    let geos_geom := geosfn geom.geos_geom_
    let w1 := w.record (.unary geom.geos_geom_)
    if geos_geom = NULL then
      some (.threw ("couldn't get " ++ jsmethod), w1)
    else
      let geometry_obj := WrapNewGEOSGeometry w1 geos_geom
      some (.returned geometry_obj.1, geometry_obj.2)

/-- The macro `GEONODE_GEOS_UNARY_TOPOLOGY_TOLERANCE(cppmethod, jsmethod, geosfn)`,
geonode.h:30-43. -/
def GEONODE_GEOS_UNARY_TOPOLOGY_TOLERANCE (jsmethod : String)
    (geosfn : GEOSGeometry → Double → GEOSGeometry)
    (w : World) (args : Arguments) : Option (Completion × World) :=
  if args.Length ≠ 1 then
    some (.threw "requires tolerance argument", w)
  else
    match Unwrap w args.This with
    | none => none
    | some geom =>
      let tolerance := (args.get 0).NumberValue
      let geos_geom := geosfn geom.geos_geom_ tolerance
      let w1 := w.record (.unaryTolerance geom.geos_geom_ tolerance)
      if geos_geom = NULL then
        some (.threw ("couldn't get " ++ jsmethod), w1)
      else
        let geometry_obj := WrapNewGEOSGeometry w1 geos_geom
        some (.returned geometry_obj.1, geometry_obj.2)

/-- The macro `GEONODE_GEOS_BINARY_TOPOLOGY(cppmethod, jsmethod, geosfn)`, geonode.h:49-62. -/
def GEONODE_GEOS_BINARY_TOPOLOGY (jsmethod : String)
    (geosfn : GEOSGeometry → GEOSGeometry → GEOSGeometry)
    (w : World) (args : Arguments) : Option (Completion × World) :=
  if args.Length ≠ 1 then
    some (.threw "requires other geometry argument", w)
  else
    match Unwrap w args.This with
    | none => none
    | some geom =>
      match Unwrap w (args.get 0) with
      | none => none
      | some other =>
        let geos_geom := geosfn geom.geos_geom_ other.geos_geom_
        let w1 := w.record (.binary geom.geos_geom_ other.geos_geom_)
        if geos_geom = NULL then
          some (.threw ("couldn't get " ++ jsmethod), w1)
        else
          let geometry_obj := WrapNewGEOSGeometry w1 geos_geom
          some (.returned geometry_obj.1, geometry_obj.2)

/-- The macro `GEONODE_GEOS_UNARY_PREDICATE(cppmethod, jsmethod, geosfn)`, geonode.h:68-77.
The engine function returns a C `char`; `r` is its conversion to `unsigned char`. -/
def GEONODE_GEOS_UNARY_PREDICATE (jsmethod : String) (geosfn : GEOSGeometry → Nat)
    (w : World) (args : Arguments) : Option (Completion × World) :=
  match Unwrap w args.This with
  | none => none
  | some geom =>
    let r := geosfn geom.geos_geom_ % 256
    let w1 := w.record (.unary geom.geos_geom_)
    if r = 2 then
      some (.threw (jsmethod ++ "() failed"), w1)
    else
      some (.returned (if r ≠ 0 then .boolean true else .boolean false), w1)

/-- The macro `GEONODE_GEOS_BINARY_PREDICATE(cppmethod, jsmethod, geosfn)`, geonode.h:83-97. -/
def GEONODE_GEOS_BINARY_PREDICATE (jsmethod : String)
    (geosfn : GEOSGeometry → GEOSGeometry → Nat)
    (w : World) (args : Arguments) : Option (Completion × World) :=
  match Unwrap w args.This with
  | none => none
  | some geom =>
    if args.Length ≠ 1 then
      some (.threw "other geometry required", w)
    else
      match Unwrap w (args.get 0) with
      | none => none
      | some other =>
        let r := geosfn geom.geos_geom_ other.geos_geom_ % 256
        let w1 := w.record (.binary geom.geos_geom_ other.geos_geom_)
        if r = 2 then
          some (.threw (jsmethod ++ "() failed"), w1)
        else
          some (.returned (if r ≠ 0 then .boolean true else .boolean false), w1)

/-- The macro `GEONODE_GEOS_BINARY_PREDICATE_TOLERANCE(cppmethod, jsmethod, geosfn)`,
geonode.h:103-118. -/
def GEONODE_GEOS_BINARY_PREDICATE_TOLERANCE (jsmethod : String)
    (geosfn : GEOSGeometry → GEOSGeometry → Double → Nat)
    (w : World) (args : Arguments) : Option (Completion × World) :=
  match Unwrap w args.This with
  | none => none
  | some geom =>
    if args.Length ≠ 2 then
      some (.threw "other geometry and tolerance required", w)
    else
      match Unwrap w (args.get 0) with
      | none => none
      | some other =>
        let tolerance := (args.get 1).NumberValue
        let r := geosfn geom.geos_geom_ other.geos_geom_ tolerance % 256
        let w1 := w.record (.binaryTolerance geom.geos_geom_ other.geos_geom_ tolerance)
        if r = 2 then
          some (.threw (jsmethod ++ "() failed"), w1)
        else
          some (.returned (if r ≠ 0 then .boolean true else .boolean false), w1)

/-- The macro `GEONODE_GEOS_PREPARED_GEOM_PREDICATE(cppmethod, jsmethod, geosfn)`,
geonode.h:124-138. -/
def GEONODE_GEOS_PREPARED_GEOM_PREDICATE (jsmethod : String)
    (geosfn : GEOSPreparedGeometry → GEOSGeometry → Nat)
    (w : World) (args : Arguments) : Option (Completion × World) :=
  match Unwrap w args.This with
  | none => none
  | some geom =>
    if args.Length ≠ 1 then
      some (.threw "other geometry required", w)
    else
      match Unwrap w (args.get 0) with
      | none => none
      | some other =>
        let r := geosfn geom.geos_pg_ other.geos_geom_ % 256
        let w1 := w.record (.prepared geom.geos_pg_ other.geos_geom_)
        if r = 2 then
          some (.threw (jsmethod ++ "() failed"), w1)
        else
          some (.returned (if r ≠ 0 then .boolean true else .boolean false), w1)

/-- A macro instantiation: which macro, the script-side method name `jsmethod` that the
macro stringifies into its messages, and the native engine function `geosfn`. -/
inductive Wrapper where
  | unaryTopology (jsmethod : String) (geosfn : GEOSGeometry → GEOSGeometry)
  | unaryTopologyTolerance (jsmethod : String) (geosfn : GEOSGeometry → Double → GEOSGeometry)
  | binaryTopology (jsmethod : String) (geosfn : GEOSGeometry → GEOSGeometry → GEOSGeometry)
  | unaryPredicate (jsmethod : String) (geosfn : GEOSGeometry → Nat)
  | binaryPredicate (jsmethod : String) (geosfn : GEOSGeometry → GEOSGeometry → Nat)
  | binaryPredicateTolerance (jsmethod : String)
      (geosfn : GEOSGeometry → GEOSGeometry → Double → Nat)
  | preparedGeomPredicate (jsmethod : String)
      (geosfn : GEOSPreparedGeometry → GEOSGeometry → Nat)

/-- The script-side name of the operation a wrapper implements. -/
def Wrapper.jsmethod : Wrapper → String
  | .unaryTopology js _ => js
  | .unaryTopologyTolerance js _ => js
  | .binaryTopology js _ => js
  | .unaryPredicate js _ => js
  | .binaryPredicate js _ => js
  | .binaryPredicateTolerance js _ => js
  | .preparedGeomPredicate js _ => js

/-- The host calling the generated function. A unary topology wrapper is a property
getter: the receiver is its holder and it has no argument list. -/
def Wrapper.call : Wrapper → World → Arguments → Option (Completion × World)
  | .unaryTopology js fn, w, args => GEONODE_GEOS_UNARY_TOPOLOGY js fn w { Holder := args.This }
  | .unaryTopologyTolerance js fn, w, args => GEONODE_GEOS_UNARY_TOPOLOGY_TOLERANCE js fn w args
  | .binaryTopology js fn, w, args => GEONODE_GEOS_BINARY_TOPOLOGY js fn w args
  | .unaryPredicate js fn, w, args => GEONODE_GEOS_UNARY_PREDICATE js fn w args
  | .binaryPredicate js fn, w, args => GEONODE_GEOS_BINARY_PREDICATE js fn w args
  | .binaryPredicateTolerance js fn, w, args =>
      GEONODE_GEOS_BINARY_PREDICATE_TOLERANCE js fn w args
  | .preparedGeomPredicate js fn, w, args => GEONODE_GEOS_PREPARED_GEOM_PREDICATE js fn w args

/-- The argument count the `args.Length()` guard of a macro asks for; `none` for the two
macros that have no such guard. -/
def Wrapper.requiredArgs : Wrapper → Option Nat
  | .unaryTopology _ _ => none
  | .unaryTopologyTolerance _ _ => some 1
  | .binaryTopology _ _ => some 1
  | .unaryPredicate _ _ => none
  | .binaryPredicate _ _ => some 1
  | .binaryPredicateTolerance _ _ => some 2
  | .preparedGeomPredicate _ _ => some 1

/-! ## The error taxonomy of the spec, read off the thrown messages

The source throws bare strings. The three kinds of error the spec names for these macros
are told apart by the text each throw site builds. -/

/-- A PredicateError of operation `jsmethod`: what the `r == 2` branch throws. -/
def PredicateError (jsmethod : String) : Completion := .threw (jsmethod ++ "() failed")

/-- An OperationError of operation `jsmethod`: what the `geos_geom == NULL` branch throws. -/
def OperationError (jsmethod : String) : Completion := .threw ("couldn't get " ++ jsmethod)

/-- The messages thrown by the `args.Length()` guards. -/
def ArgumentErrorMessages : List String :=
  ["requires tolerance argument", "requires other geometry argument",
   "other geometry required", "other geometry and tolerance required"]

/-- An ArgumentError: a throw carrying one of the messages of the `args.Length()` guards. -/
def Completion.isArgumentError : Completion → Prop
  | .threw msg => msg ∈ ArgumentErrorMessages
  | .returned _ => False

/-- A failed call: control went back to the host through `ThrowException`. -/
def Completion.isThrow : Completion → Prop
  | .threw _ => True
  | .returned _ => False

/-- The message `msg` includes the text `name`. -/
def includes (msg name : String) : Prop := name.data <:+: msg.data

instance (c : Completion) : Decidable c.isArgumentError := by
  cases c <;> unfold Completion.isArgumentError <;> infer_instance

instance (c : Completion) : Decidable c.isThrow := by
  cases c <;> unfold Completion.isThrow <;> infer_instance

instance (msg name : String) : Decidable (includes msg name) := by
  unfold includes; infer_instance

/-- What the spec asks of a topology wrapper whose engine function returned the pointer
`ret`, for a call in world `w` with outcome `out`: the call comes back to the host; it
fails exactly when `ret` is null, and then with the OperationError of the operation;
otherwise it returns a reference that was free in `w` and now holds a Geometry whose
geometry handle is `ret`. -/
def TopologyContract (jsmethod : String) (w : World) (ret : GEOSGeometry)
    (out : Option (Completion × World)) : Prop :=
  ∃ c w1, out = some (c, w1) ∧
    (c.isThrow ↔ ret = NULL) ∧
    (ret = NULL → c = OperationError jsmethod) ∧
    (ret ≠ NULL → ∃ ref g, c = .returned (.object ref) ∧
      Unwrap w (.object ref) = none ∧ Unwrap w1 (.object ref) = some g ∧ g.geos_geom_ = ret)

/-- What the predicate macros do with a byte `r` that the engine function returned, for a
call with outcome `out`: the call comes back to the host; it fails exactly when `r` is 2,
returns false exactly when `r` is 0, and returns true for every other byte. -/
def ByteContract (r : Nat) (out : Option (Completion × World)) : Prop :=
  ∃ c w1, out = some (c, w1) ∧
    (c.isThrow ↔ r = 2) ∧
    (c = .returned (.boolean false) ↔ r = 0) ∧
    (r ≠ 0 → r ≠ 2 → c = .returned (.boolean true))

/-- A sample world: the Geometry at reference 0 owns handle 7 and has no prepared handle,
the Geometry at reference 1 owns handle 9; the engine has not been called yet. -/
def sampleWorld : World :=
  { heap := [{ geos_geom_ := 7, geos_pg_ := NULL }, { geos_geom_ := 9, geos_pg_ := NULL }],
    calls := [] }

/-! ## Helper lemmas -/

theorem couldnt_get_not_argument_message (js : String) :
    "couldn't get " ++ js ∉ ArgumentErrorMessages := by
  intro h
  have key : ∀ m ∈ ArgumentErrorMessages, ¬ ("couldn't get ".data <+: m.data) := by decide
  have hm := key _ h
  apply hm
  rw [String.data_append]
  exact List.prefix_append _ _

theorem failed_not_argument_message (js : String) :
    js ++ "() failed" ∉ ArgumentErrorMessages := by
  intro h
  have key : ∀ m ∈ ArgumentErrorMessages, ¬ ("() failed".data <:+ m.data) := by decide
  have hm := key _ h
  apply hm
  rw [String.data_append]
  exact List.suffix_append _ _

theorem includes_couldnt_get (js : String) : includes ("couldn't get " ++ js) js := by
  unfold includes
  rw [String.data_append]
  exact (List.suffix_append _ _).isInfix

theorem includes_failed (js : String) : includes (js ++ "() failed") js := by
  unfold includes
  rw [String.data_append]
  exact (List.prefix_append _ _).isInfix

theorem topologyContract_of_null (jsmethod : String) (w : World) (ret : GEOSGeometry)
    (w1 : World) (hnull : ret = NULL) :
    TopologyContract jsmethod w ret (some (.threw ("couldn't get " ++ jsmethod), w1)) :=
  ⟨_, _, rfl, by simp [Completion.isThrow, hnull], fun _ => rfl, fun h => absurd hnull h⟩

theorem topologyContract_of_wrap (jsmethod : String) (w : World) (ret : GEOSGeometry)
    (c : EngineCall) (hret : ret ≠ NULL) :
    TopologyContract jsmethod w ret
      (some (.returned (WrapNewGEOSGeometry (w.record c) ret).1,
        (WrapNewGEOSGeometry (w.record c) ret).2)) := by
  refine ⟨_, _, rfl, by simp [Completion.isThrow, hret], fun h => absurd h hret, fun _ => ?_⟩
  exact ⟨w.heap.length, { geos_geom_ := ret, geos_pg_ := NULL }, rfl,
    by simp [Unwrap], by simp [Unwrap, WrapNewGEOSGeometry, World.record], rfl⟩

theorem Unwrap_heap_append (w w1 : World) (extra : List Geometry)
    (hheap : w1.heap = w.heap ++ extra) (v : Value) (g : Geometry)
    (hv : Unwrap w v = some g) : Unwrap w1 v = some g := by
  cases v with
  | object ref =>
    simp only [Unwrap] at hv ⊢
    rw [hheap]
    have hlt : ref < w.heap.length := by
      rcases Nat.lt_or_ge ref w.heap.length with h | h
      · exact h
      · rw [List.getElem?_eq_none h] at hv
        cases hv
    rw [List.getElem?_append_left hlt]
    exact hv
  | undefined => simp [Unwrap] at hv
  | boolean b => simp [Unwrap] at hv
  | number d => simp [Unwrap] at hv

theorem byteContract_of_byte (jsmethod : String) (r : Nat) (w1 : World) :
    ByteContract r
      (if r = 2 then some (Completion.threw (jsmethod ++ "() failed"), w1)
       else some (.returned (if r ≠ 0 then .boolean true else .boolean false), w1)) := by
  by_cases h2 : r = 2
  · subst h2
    exact ⟨_, _, rfl, by simp [Completion.isThrow], by simp, fun _ h => absurd rfl h⟩
  · by_cases h0 : r = 0
    · subst h0
      exact ⟨_, _, by simp; exact ⟨rfl, rfl⟩, by simp [Completion.isThrow], by simp,
        fun h _ => absurd rfl h⟩
    · refine ⟨.returned (.boolean true), w1, by simp [h2, h0], by simp [Completion.isThrow, h2],
        by simp [h0], fun _ _ => rfl⟩

/-! ## The claims -/

/-- C1. For a unary predicate wrapper whose receiver is a wrapped Geometry, the engine
function is called once on the receiver's geometry handle, and its tri-state answer is
mapped as follows: 0 gives the boolean false, 1 gives the boolean true, and 2 makes the
call fail with the PredicateError of the operation (a throw, not a boolean). -/
theorem C1_unary_predicate_tristate (jsmethod : String) (geosfn : GEOSGeometry → Nat)
    (w : World) (args : Arguments) (geom : Geometry)
    (hThis : Unwrap w args.This = some geom) :
    (geosfn geom.geos_geom_ = 0 →
      GEONODE_GEOS_UNARY_PREDICATE jsmethod geosfn w args
        = some (.returned (.boolean false), w.record (.unary geom.geos_geom_))) ∧
    (geosfn geom.geos_geom_ = 1 →
      GEONODE_GEOS_UNARY_PREDICATE jsmethod geosfn w args
        = some (.returned (.boolean true), w.record (.unary geom.geos_geom_))) ∧
    (geosfn geom.geos_geom_ = 2 →
      GEONODE_GEOS_UNARY_PREDICATE jsmethod geosfn w args
        = some (PredicateError jsmethod, w.record (.unary geom.geos_geom_)) ∧
      ∀ b w1, GEONODE_GEOS_UNARY_PREDICATE jsmethod geosfn w args
        ≠ some (.returned (.boolean b), w1)) := by
  refine ⟨?_, ?_, ?_⟩ <;> intro hr <;>
    simp [GEONODE_GEOS_UNARY_PREDICATE, hThis, hr, PredicateError]

/-- C1, at the is-empty wrapper of a Geometry with handle 7 and an engine that answers 2:
the call throws "isEmpty() failed" after one engine call on handle 7. -/
theorem C1_unary_predicate_tristate_witness :
    GEONODE_GEOS_UNARY_PREDICATE "isEmpty" (fun _ => 2)
        { heap := [{ geos_geom_ := 7, geos_pg_ := 0 }], calls := [] }
        { This := .object 0, argv := [] }
      = some (.threw "isEmpty() failed",
          { heap := [{ geos_geom_ := 7, geos_pg_ := 0 }], calls := [.unary 7] }) :=
  ((C1_unary_predicate_tristate "isEmpty" (fun _ => 2)
      { heap := [{ geos_geom_ := 7, geos_pg_ := 0 }], calls := [] }
      { This := .object 0, argv := [] } { geos_geom_ := 7, geos_pg_ := 0 } rfl).2.2 rfl).1

/-- C2. For each of the three binary predicate wrappers, called on a wrapped Geometry with
the argument count it requires and a wrapped Geometry as first argument: the engine
function is called exactly once, with the receiver's handle as first operand (its geometry
handle, or its prepared handle for the prepared wrapper), the argument's geometry handle
as second operand and, where there is one, the tolerance read from the second argument as
third; its answer 0 gives false, 1 gives true, and 2 makes the call fail with the
PredicateError of the operation. -/
theorem C2_binary_predicate_tristate (jsmethod : String) (w : World) (args : Arguments)
    (geom other : Geometry) (r : Nat)
    (hThis : Unwrap w args.This = some geom)
    (hOther : Unwrap w (args.get 0) = some other)
    (hr : r = 0 ∨ r = 1 ∨ r = 2) :
    (∀ geosfn : GEOSGeometry → GEOSGeometry → Nat,
      args.Length = 1 → geosfn geom.geos_geom_ other.geos_geom_ = r →
      GEONODE_GEOS_BINARY_PREDICATE jsmethod geosfn w args
        = some (if r = 2 then PredicateError jsmethod
                else if r = 1 then .returned (.boolean true) else .returned (.boolean false),
              w.record (.binary geom.geos_geom_ other.geos_geom_))) ∧
    (∀ geosfn : GEOSGeometry → GEOSGeometry → Double → Nat,
      args.Length = 2 →
      geosfn geom.geos_geom_ other.geos_geom_ (args.get 1).NumberValue = r →
      GEONODE_GEOS_BINARY_PREDICATE_TOLERANCE jsmethod geosfn w args
        = some (if r = 2 then PredicateError jsmethod
                else if r = 1 then .returned (.boolean true) else .returned (.boolean false),
              w.record (.binaryTolerance geom.geos_geom_ other.geos_geom_
                (args.get 1).NumberValue))) ∧
    (∀ geosfn : GEOSPreparedGeometry → GEOSGeometry → Nat,
      args.Length = 1 → geosfn geom.geos_pg_ other.geos_geom_ = r →
      GEONODE_GEOS_PREPARED_GEOM_PREDICATE jsmethod geosfn w args
        = some (if r = 2 then PredicateError jsmethod
                else if r = 1 then .returned (.boolean true) else .returned (.boolean false),
              w.record (.prepared geom.geos_pg_ other.geos_geom_))) := by
  refine ⟨?_, ?_, ?_⟩ <;> intro geosfn hlen hcode <;>
    rcases hr with h | h | h <;> subst h <;>
    simp [GEONODE_GEOS_BINARY_PREDICATE, GEONODE_GEOS_BINARY_PREDICATE_TOLERANCE,
      GEONODE_GEOS_PREPARED_GEOM_PREDICATE, hThis, hOther, hlen, hcode, PredicateError]

/-- C2, at the contains wrapper: receiver handle 7, argument handle 9, engine answer 2.
The engine is called on (7, 9) and the call throws "contains() failed". -/
theorem C2_binary_predicate_tristate_witness :
    GEONODE_GEOS_BINARY_PREDICATE "contains" (fun _ _ => 2)
        { heap := [{ geos_geom_ := 7, geos_pg_ := 8 }, { geos_geom_ := 9, geos_pg_ := 0 }],
          calls := [] }
        { This := .object 0, argv := [.object 1] }
      = some (.threw "contains() failed",
          { heap := [{ geos_geom_ := 7, geos_pg_ := 8 }, { geos_geom_ := 9, geos_pg_ := 0 }],
            calls := [.binary 7 9] }) :=
  (C2_binary_predicate_tristate "contains"
      { heap := [{ geos_geom_ := 7, geos_pg_ := 8 }, { geos_geom_ := 9, geos_pg_ := 0 }],
        calls := [] }
      { This := .object 0, argv := [.object 1] }
      { geos_geom_ := 7, geos_pg_ := 8 } { geos_geom_ := 9, geos_pg_ := 0 } 2
      rfl rfl (Or.inr (Or.inr rfl))).1 (fun _ _ => 2) rfl rfl

/-- C3. For each of the three topology wrappers, called with a valid argument count on
wrapped Geometries, the call comes back to the host, and it fails if and only if the
engine function returned the null pointer; the failure is the OperationError of the
operation, whose message is "couldn't get " followed by the script-side name. Otherwise
the call returns a reference that was free before the call and now holds a Geometry whose
geometry handle is the handle the engine returned. -/
theorem C3_topology_null_sentinel (jsmethod : String) (w : World) (args : Arguments)
    (geom : Geometry) (hThis : Unwrap w args.This = some geom) :
    (∀ geosfn : GEOSGeometry → GEOSGeometry,
      TopologyContract jsmethod w (geosfn geom.geos_geom_)
        (GEONODE_GEOS_UNARY_TOPOLOGY jsmethod geosfn w { Holder := args.This })) ∧
    (∀ geosfn : GEOSGeometry → Double → GEOSGeometry, args.Length = 1 →
      TopologyContract jsmethod w (geosfn geom.geos_geom_ (args.get 0).NumberValue)
        (GEONODE_GEOS_UNARY_TOPOLOGY_TOLERANCE jsmethod geosfn w args)) ∧
    (∀ (geosfn : GEOSGeometry → GEOSGeometry → GEOSGeometry) (other : Geometry),
      args.Length = 1 → Unwrap w (args.get 0) = some other →
      TopologyContract jsmethod w (geosfn geom.geos_geom_ other.geos_geom_)
        (GEONODE_GEOS_BINARY_TOPOLOGY jsmethod geosfn w args)) := by
  refine ⟨?_, ?_, ?_⟩
  · intro geosfn
    by_cases hnull : geosfn geom.geos_geom_ = NULL
    · simpa [GEONODE_GEOS_UNARY_TOPOLOGY, hThis, hnull] using
        topologyContract_of_null jsmethod w _ _ hnull
    · simpa [GEONODE_GEOS_UNARY_TOPOLOGY, hThis, hnull] using
        topologyContract_of_wrap jsmethod w _ (.unary geom.geos_geom_) hnull
  · intro geosfn hlen
    by_cases hnull : geosfn geom.geos_geom_ (args.get 0).NumberValue = NULL
    · simpa [GEONODE_GEOS_UNARY_TOPOLOGY_TOLERANCE, hThis, hlen, hnull] using
        topologyContract_of_null jsmethod w _ _ hnull
    · simpa [GEONODE_GEOS_UNARY_TOPOLOGY_TOLERANCE, hThis, hlen, hnull] using
        topologyContract_of_wrap jsmethod w _
          (.unaryTolerance geom.geos_geom_ (args.get 0).NumberValue) hnull
  · intro geosfn other hlen hOther
    by_cases hnull : geosfn geom.geos_geom_ other.geos_geom_ = NULL
    · simpa [GEONODE_GEOS_BINARY_TOPOLOGY, hThis, hOther, hlen, hnull] using
        topologyContract_of_null jsmethod w _ _ hnull
    · simpa [GEONODE_GEOS_BINARY_TOPOLOGY, hThis, hOther, hlen, hnull] using
        topologyContract_of_wrap jsmethod w _
          (.binary geom.geos_geom_ other.geos_geom_) hnull

/-- C3, at the envelope getter of a Geometry with handle 7: an engine that answers the null
pointer makes the read throw "couldn't get envelope", and the contract holds there. -/
theorem C3_topology_null_sentinel_witness :
    GEONODE_GEOS_UNARY_TOPOLOGY "envelope" (fun _ => 0)
        { heap := [{ geos_geom_ := 7, geos_pg_ := 0 }], calls := [] } { Holder := .object 0 }
      = some (.threw "couldn't get envelope",
          { heap := [{ geos_geom_ := 7, geos_pg_ := 0 }], calls := [.unary 7] }) ∧
    TopologyContract "envelope" { heap := [{ geos_geom_ := 7, geos_pg_ := 0 }], calls := [] } 0
      (GEONODE_GEOS_UNARY_TOPOLOGY "envelope" (fun _ => 0)
        { heap := [{ geos_geom_ := 7, geos_pg_ := 0 }], calls := [] } { Holder := .object 0 }) :=
  ⟨rfl, (C3_topology_null_sentinel "envelope"
      { heap := [{ geos_geom_ := 7, geos_pg_ := 0 }], calls := [] }
      { This := .object 0, argv := [] } { geos_geom_ := 7, geos_pg_ := 0 } rfl).1 (fun _ => 0)⟩

/-- C4. For each of the five argument-taking wrappers (one argument required, two for the
binary predicate with tolerance), called on a wrapped Geometry with any argument list: the
call fails with an ArgumentError if and only if the number of arguments differs from the
required count; and in that case the world is handed back as it was, so the engine
function was not invoked and no Geometry wrapper was created. -/
theorem C4_argument_count (wr : Wrapper) (k : Nat) (hk : wr.requiredArgs = some k)
    (w : World) (args : Arguments) (geom : Geometry)
    (hThis : Unwrap w args.This = some geom) :
    ((∃ c w1, wr.call w args = some (c, w1) ∧ c.isArgumentError) ↔ args.Length ≠ k) ∧
    (args.Length ≠ k → ∃ c, wr.call w args = some (c, w) ∧ c.isArgumentError) := by
  have hwrong : args.Length ≠ k → ∃ c, wr.call w args = some (c, w) ∧ c.isArgumentError := by
    intro hlen
    cases wr <;> simp only [Wrapper.requiredArgs, Option.some.injEq] at hk <;>
      first
      | exact absurd hk (by simp)
      | (subst hk
         simp [Wrapper.call, GEONODE_GEOS_UNARY_TOPOLOGY_TOLERANCE,
           GEONODE_GEOS_BINARY_TOPOLOGY, GEONODE_GEOS_BINARY_PREDICATE,
           GEONODE_GEOS_BINARY_PREDICATE_TOLERANCE, GEONODE_GEOS_PREPARED_GEOM_PREDICATE,
           hThis, hlen, Completion.isArgumentError, ArgumentErrorMessages])
  refine ⟨⟨?_, fun hlen => ?_⟩, hwrong⟩
  · rintro ⟨c, w1, hcall, hc⟩ hlen
    have h1 := couldnt_get_not_argument_message wr.jsmethod
    have h2 := failed_not_argument_message wr.jsmethod
    cases wr <;> simp only [Wrapper.requiredArgs, Option.some.injEq] at hk <;>
      first
      | exact absurd hk (by simp)
      | (subst hk
         simp only [Wrapper.call, GEONODE_GEOS_UNARY_TOPOLOGY_TOLERANCE,
           GEONODE_GEOS_BINARY_TOPOLOGY, GEONODE_GEOS_BINARY_PREDICATE,
           GEONODE_GEOS_BINARY_PREDICATE_TOLERANCE, GEONODE_GEOS_PREPARED_GEOM_PREDICATE,
           hThis, hlen, Wrapper.jsmethod, ne_eq, not_true_eq_false, if_false]
           at hcall h1 h2
         repeat' split at hcall
         all_goals
           simp at hcall
         all_goals
           obtain ⟨hc1, -⟩ := hcall
           subst hc1
           simp [Completion.isArgumentError] at hc
         all_goals
           first
           | exact h1 hc
           | exact h2 hc)
  · obtain ⟨c, hcall, hc⟩ := hwrong hlen
    exact ⟨c, w, hcall, hc⟩

/-- C4, at the simplify wrapper called without any argument: the call throws an
ArgumentError and hands the world back untouched. -/
theorem C4_argument_count_witness :
    ∃ c, Wrapper.call (.unaryTopologyTolerance "simplify" (fun g _ => g)) sampleWorld
        { This := .object 0, argv := [] } = some (c, sampleWorld) ∧ c.isArgumentError :=
  (C4_argument_count (.unaryTopologyTolerance "simplify" (fun g _ => g)) 1 rfl sampleWorld
    { This := .object 0, argv := [] } { geos_geom_ := 7, geos_pg_ := NULL } rfl).2 (by decide)

/-- C5 as stated fails: the equals-exact wrapper called with only the other geometry
throws the ArgumentError "other geometry and tolerance required", and the engine function
is not called at all (the call log stays empty), so no result for tolerance 0 is produced. -/
theorem C5_tolerance_not_optional_counterexample :
    GEONODE_GEOS_BINARY_PREDICATE_TOLERANCE "equalsExact" (fun _ _ _ => 1) sampleWorld
        { This := .object 0, argv := [.object 1] }
      = some (.threw "other geometry and tolerance required", sampleWorld) ∧
    (Completion.threw "other geometry and tolerance required").isArgumentError ∧
    sampleWorld.calls = [] ∧
    GEONODE_GEOS_BINARY_PREDICATE_TOLERANCE "equalsExact" (fun _ _ _ => 1) sampleWorld
        { This := .object 0, argv := [.object 1] }
      ≠ some (.returned (.boolean true), sampleWorld.record (.binaryTolerance 7 9 0)) := by
  refine ⟨rfl, by decide, rfl, by decide⟩

/-- C5, amended. The tolerance argument of the binary predicate with tolerance is required.
Called on a wrapped Geometry with only the other geometry, the wrapper fails with the
ArgumentError "other geometry and tolerance required" and the engine is not invoked;
called with the other geometry and a tolerance, it calls the engine once with exactly that
tolerance and yields its result: the PredicateError of the operation for the answer 2,
otherwise the boolean "the answer is not 0". -/
theorem C5_tolerance_required (jsmethod : String)
    (geosfn : GEOSGeometry → GEOSGeometry → Double → Nat) (w : World) (recv o : Value)
    (geom other : Geometry) (hThis : Unwrap w recv = some geom)
    (hOther : Unwrap w o = some other) :
    GEONODE_GEOS_BINARY_PREDICATE_TOLERANCE jsmethod geosfn w { This := recv, argv := [o] }
      = some (.threw "other geometry and tolerance required", w) ∧
    (∀ t : Value,
      GEONODE_GEOS_BINARY_PREDICATE_TOLERANCE jsmethod geosfn w
          { This := recv, argv := [o, t] }
        = some (if geosfn geom.geos_geom_ other.geos_geom_ t.NumberValue % 256 = 2
                then PredicateError jsmethod
                else .returned (.boolean
                  (decide (geosfn geom.geos_geom_ other.geos_geom_ t.NumberValue % 256 ≠ 0))),
            w.record (.binaryTolerance geom.geos_geom_ other.geos_geom_ t.NumberValue))) := by
  refine ⟨?_, ?_⟩
  · simp [GEONODE_GEOS_BINARY_PREDICATE_TOLERANCE, hThis, Arguments.Length]
  · intro t
    have h0 : ({ This := recv, argv := [o, t] } : Arguments).get 0 = o := rfl
    have h1 : ({ This := recv, argv := [o, t] } : Arguments).get 1 = t := rfl
    by_cases ht : geosfn geom.geos_geom_ other.geos_geom_ t.NumberValue % 256 = 2
    · simp [GEONODE_GEOS_BINARY_PREDICATE_TOLERANCE, hThis, hOther, Arguments.Length, h0, h1,
        ht, PredicateError]
    · by_cases hz : geosfn geom.geos_geom_ other.geos_geom_ t.NumberValue % 256 = 0 <;>
        simp [GEONODE_GEOS_BINARY_PREDICATE_TOLERANCE, hThis, hOther, Arguments.Length, h0, h1,
          ht, hz]

/-- C5 amended, at the equals-exact wrapper in the sample world: one argument throws,
two arguments reach the engine with the given tolerance. -/
theorem C5_tolerance_required_witness :
    GEONODE_GEOS_BINARY_PREDICATE_TOLERANCE "equalsExact" (fun _ _ _ => 1) sampleWorld
        { This := .object 0, argv := [.object 1] }
      = some (.threw "other geometry and tolerance required", sampleWorld) ∧
    GEONODE_GEOS_BINARY_PREDICATE_TOLERANCE "equalsExact" (fun _ _ _ => 1) sampleWorld
        { This := .object 0, argv := [.object 1, .number 0] }
      = some (.returned (.boolean true), sampleWorld.record (.binaryTolerance 7 9 0)) :=
  ⟨(C5_tolerance_required "equalsExact" (fun _ _ _ => 1) sampleWorld (.object 0) (.object 1)
      { geos_geom_ := 7, geos_pg_ := NULL } { geos_geom_ := 9, geos_pg_ := NULL } rfl rfl).1,
   (C5_tolerance_required "equalsExact" (fun _ _ _ => 1) sampleWorld (.object 0) (.object 1)
      { geos_geom_ := 7, geos_pg_ := NULL } { geos_geom_ := 9, geos_pg_ := NULL } rfl rfl).2
      (.number 0)⟩

/-- C6 as stated fails: in the sample world the receiver has no prepared handle; the
prepared-contains wrapper passes the null prepared handle to the engine function as its
first operand, and after the call the receiver still has no prepared handle (the heap is
the one from before the call). Nothing was constructed or stored. -/
theorem C6_no_lazy_prepare_counterexample :
    Unwrap sampleWorld (.object 0) = some { geos_geom_ := 7, geos_pg_ := NULL } ∧
    GEONODE_GEOS_PREPARED_GEOM_PREDICATE "preparedContains" (fun _ _ => 1) sampleWorld
        { This := .object 0, argv := [.object 1] }
      = some (.returned (.boolean true),
          { heap := sampleWorld.heap, calls := [.prepared NULL 9] }) := by
  exact ⟨rfl, rfl⟩

/-- C6, amended. A prepared-geometry predicate called on a wrapped Geometry with one other
wrapped Geometry passes the prepared handle stored in the receiver, as it is, to the
engine function as first operand - the null handle when none is stored - and neither
constructs nor stores a prepared handle: the heap after the call is the heap before it.
A later prepared-predicate call on the same receiver passes the same stored handle again. -/
theorem C6_prepared_handle_passed_as_stored (js1 js2 : String)
    (fn1 fn2 : GEOSPreparedGeometry → GEOSGeometry → Nat) (w : World) (recv a1 a2 : Value)
    (geom o1 o2 : Geometry) (hThis : Unwrap w recv = some geom)
    (h1 : Unwrap w a1 = some o1) (h2 : Unwrap w a2 = some o2) :
    ∃ c1 w1, GEONODE_GEOS_PREPARED_GEOM_PREDICATE js1 fn1 w { This := recv, argv := [a1] }
        = some (c1, w1) ∧
      w1.heap = w.heap ∧
      w1.calls = w.calls ++ [.prepared geom.geos_pg_ o1.geos_geom_] ∧
      ∃ c2 w2, GEONODE_GEOS_PREPARED_GEOM_PREDICATE js2 fn2 w1 { This := recv, argv := [a2] }
          = some (c2, w2) ∧
        w2.heap = w.heap ∧
        w2.calls = w1.calls ++ [.prepared geom.geos_pg_ o2.geos_geom_] := by
  have step : ∀ (js : String) (fn : GEOSPreparedGeometry → GEOSGeometry → Nat) (v : World)
      (a : Value) (o : Geometry), Unwrap v recv = some geom → Unwrap v a = some o →
      ∃ c v1, GEONODE_GEOS_PREPARED_GEOM_PREDICATE js fn v { This := recv, argv := [a] }
          = some (c, v1) ∧
        v1.heap = v.heap ∧ v1.calls = v.calls ++ [.prepared geom.geos_pg_ o.geos_geom_] := by
    intro js fn v a o hv ha
    have h0 : ({ This := recv, argv := [a] } : Arguments).get 0 = a := rfl
    by_cases hr : fn geom.geos_pg_ o.geos_geom_ % 256 = 2
    · refine ⟨.threw (js ++ "() failed"), v.record (.prepared geom.geos_pg_ o.geos_geom_),
        ?_, rfl, rfl⟩
      simp [GEONODE_GEOS_PREPARED_GEOM_PREDICATE, hv, ha, h0, hr, Arguments.Length]
    · refine ⟨.returned (if fn geom.geos_pg_ o.geos_geom_ % 256 ≠ 0 then .boolean true
          else .boolean false), v.record (.prepared geom.geos_pg_ o.geos_geom_), ?_, rfl, rfl⟩
      simp [GEONODE_GEOS_PREPARED_GEOM_PREDICATE, hv, ha, h0, hr, Arguments.Length]
  obtain ⟨c1, w1, hc1, hh1, hl1⟩ := step js1 fn1 w a1 o1 hThis h1
  have hU : ∀ v, Unwrap w1 v = Unwrap w v := by
    intro v
    cases v <;> simp [Unwrap, hh1]
  obtain ⟨c2, w2, hc2, hh2, hl2⟩ := step js2 fn2 w1 a2 o2 ((hU recv).trans hThis)
    ((hU a2).trans h2)
  exact ⟨c1, w1, hc1, hh1, hl1, c2, w2, hc2, hh2.trans hh1, hl2⟩

/-- C6 amended, in the sample world: two prepared-predicate calls in a row both hand the
stored (null) prepared handle to the engine, and the heap stays as it was. -/
theorem C6_prepared_handle_passed_as_stored_witness :
    ∃ c1 w1, GEONODE_GEOS_PREPARED_GEOM_PREDICATE "preparedContains" (fun _ _ => 1)
        sampleWorld { This := .object 0, argv := [.object 1] } = some (c1, w1) ∧
      w1.heap = sampleWorld.heap ∧
      w1.calls = sampleWorld.calls ++ [.prepared NULL 9] ∧
      ∃ c2 w2, GEONODE_GEOS_PREPARED_GEOM_PREDICATE "preparedCovers" (fun _ _ => 0)
          w1 { This := .object 0, argv := [.object 0] } = some (c2, w2) ∧
        w2.heap = sampleWorld.heap ∧
        w2.calls = w1.calls ++ [.prepared NULL 7] :=
  C6_prepared_handle_passed_as_stored "preparedContains" "preparedCovers" (fun _ _ => 1)
    (fun _ _ => 0) sampleWorld (.object 0) (.object 1) (.object 0)
    { geos_geom_ := 7, geos_pg_ := NULL } { geos_geom_ := 9, geos_pg_ := NULL }
    { geos_geom_ := 7, geos_pg_ := NULL } rfl rfl rfl

/-- C7 as stated fails: the simplify wrapper called without an argument throws
"requires tolerance argument", a message that does not include the operation name
"simplify". -/
theorem C7_argument_error_unnamed_counterexample :
    Wrapper.call (.unaryTopologyTolerance "simplify" (fun g _ => g)) sampleWorld
        { This := .object 0, argv := [] }
      = some (.threw "requires tolerance argument", sampleWorld) ∧
    (Completion.threw "requires tolerance argument").isArgumentError ∧
    ¬ includes "requires tolerance argument"
        (Wrapper.unaryTopologyTolerance "simplify" (fun g _ => g)).jsmethod := by
  refine ⟨rfl, by decide, by decide⟩

/-- C7, amended. Whenever a wrapper generated by the macros throws, either the argument
count was wrong and the message is one of the four fixed texts of the argument guards
(which name the missing argument, not the operation), or the message is the one of the
OperationError ("couldn't get " then the name) or of the PredicateError (the name then
"() failed") of the operation, and it includes the operation's script-side name. -/
theorem C7_error_messages (wr : Wrapper) (w w1 : World) (args : Arguments) (msg : String)
    (hcall : wr.call w args = some (.threw msg, w1)) :
    (msg ∈ ArgumentErrorMessages ∧ ∃ k, wr.requiredArgs = some k ∧ args.Length ≠ k) ∨
    ((Completion.threw msg = OperationError wr.jsmethod ∨
        Completion.threw msg = PredicateError wr.jsmethod) ∧
      includes msg wr.jsmethod) := by
  have h1 := includes_couldnt_get wr.jsmethod
  have h2 := includes_failed wr.jsmethod
  cases wr <;>
    simp only [Wrapper.call, GEONODE_GEOS_UNARY_TOPOLOGY, GEONODE_GEOS_UNARY_TOPOLOGY_TOLERANCE,
      GEONODE_GEOS_BINARY_TOPOLOGY, GEONODE_GEOS_UNARY_PREDICATE,
      GEONODE_GEOS_BINARY_PREDICATE, GEONODE_GEOS_BINARY_PREDICATE_TOLERANCE,
      GEONODE_GEOS_PREPARED_GEOM_PREDICATE, Wrapper.jsmethod] at hcall h1 h2 <;>
    repeat' split at hcall
  all_goals
    simp at hcall
  all_goals
    obtain ⟨hm, -⟩ := hcall
    subst hm
  all_goals
    first
    | (left; refine ⟨by simp [ArgumentErrorMessages], _, rfl, ?_⟩; assumption)
    | (right; exact ⟨Or.inl rfl, h1⟩)
    | (right; exact ⟨Or.inr rfl, h2⟩)

/-- C7 amended, at the is-valid wrapper with an engine that answers 2: the thrown message
"isValid() failed" includes the name "isValid". -/
theorem C7_error_messages_witness :
    (Completion.threw "isValid() failed" = OperationError "isValid" ∨
        Completion.threw "isValid() failed" = PredicateError "isValid") ∧
      includes "isValid() failed" "isValid" :=
  (C7_error_messages (.unaryPredicate "isValid" (fun _ => 2)) sampleWorld
    (sampleWorld.record (.unary 7)) { This := .object 0, argv := [] } "isValid() failed"
    rfl).resolve_left (by decide)

/-- C8. At the wrapper level, for a receiver A and one argument B that are wrapped
Geometries: whenever the engine's prepared function on (prepared handle of A, handle of B)
and its non-prepared function on (handle of A, handle of B) return the same code, the
prepared-predicate wrapper and the binary-predicate wrapper either both return the same
boolean or both fail. -/
theorem C8_prepared_agrees_with_binary (jsPrepared jsBinary : String)
    (preparedfn : GEOSPreparedGeometry → GEOSGeometry → Nat)
    (binaryfn : GEOSGeometry → GEOSGeometry → Nat)
    (w : World) (recv b : Value) (A B : Geometry)
    (hA : Unwrap w recv = some A) (hB : Unwrap w b = some B)
    (hcode : preparedfn A.geos_pg_ B.geos_geom_ = binaryfn A.geos_geom_ B.geos_geom_) :
    (∃ (r : Bool) (wp wb : World),
      GEONODE_GEOS_PREPARED_GEOM_PREDICATE jsPrepared preparedfn w { This := recv, argv := [b] }
        = some (.returned (.boolean r), wp) ∧
      GEONODE_GEOS_BINARY_PREDICATE jsBinary binaryfn w { This := recv, argv := [b] }
        = some (.returned (.boolean r), wb)) ∨
    (∃ (wp wb : World),
      GEONODE_GEOS_PREPARED_GEOM_PREDICATE jsPrepared preparedfn w { This := recv, argv := [b] }
        = some (PredicateError jsPrepared, wp) ∧
      GEONODE_GEOS_BINARY_PREDICATE jsBinary binaryfn w { This := recv, argv := [b] }
        = some (PredicateError jsBinary, wb)) := by
  have h0 : ({ This := recv, argv := [b] } : Arguments).get 0 = b := rfl
  by_cases hr : binaryfn A.geos_geom_ B.geos_geom_ % 256 = 2
  · right
    exact ⟨w.record (.prepared A.geos_pg_ B.geos_geom_),
      w.record (.binary A.geos_geom_ B.geos_geom_),
      by simp [GEONODE_GEOS_PREPARED_GEOM_PREDICATE, hA, hB, h0, hcode, hr, Arguments.Length,
        PredicateError],
      by simp [GEONODE_GEOS_BINARY_PREDICATE, hA, hB, h0, hr, Arguments.Length,
        PredicateError]⟩
  · left
    by_cases hz : binaryfn A.geos_geom_ B.geos_geom_ % 256 = 0
    · exact ⟨false, w.record (.prepared A.geos_pg_ B.geos_geom_),
        w.record (.binary A.geos_geom_ B.geos_geom_),
        by simp [GEONODE_GEOS_PREPARED_GEOM_PREDICATE, hA, hB, h0, hcode, hr, hz,
          Arguments.Length],
        by simp [GEONODE_GEOS_BINARY_PREDICATE, hA, hB, h0, hr, hz, Arguments.Length]⟩
    · exact ⟨true, w.record (.prepared A.geos_pg_ B.geos_geom_),
        w.record (.binary A.geos_geom_ B.geos_geom_),
        by simp [GEONODE_GEOS_PREPARED_GEOM_PREDICATE, hA, hB, h0, hcode, hr, hz,
          Arguments.Length],
        by simp [GEONODE_GEOS_BINARY_PREDICATE, hA, hB, h0, hr, hz, Arguments.Length]⟩

/-- C8, at contains and prepared-contains on a receiver with handle 7 and prepared handle 8
and an argument with handle 9, the engine answering 1 to both: both wrappers return true. -/
theorem C8_prepared_agrees_with_binary_witness :
    (∃ (r : Bool) (wp wb : World),
      GEONODE_GEOS_PREPARED_GEOM_PREDICATE "preparedContains" (fun _ _ => 1)
          { heap := [{ geos_geom_ := 7, geos_pg_ := 8 }, { geos_geom_ := 9, geos_pg_ := 0 }],
            calls := [] } { This := .object 0, argv := [.object 1] }
        = some (.returned (.boolean r), wp) ∧
      GEONODE_GEOS_BINARY_PREDICATE "contains" (fun _ _ => 1)
          { heap := [{ geos_geom_ := 7, geos_pg_ := 8 }, { geos_geom_ := 9, geos_pg_ := 0 }],
            calls := [] } { This := .object 0, argv := [.object 1] }
        = some (.returned (.boolean r), wb)) ∨
    (∃ (wp wb : World),
      GEONODE_GEOS_PREPARED_GEOM_PREDICATE "preparedContains" (fun _ _ => 1)
          { heap := [{ geos_geom_ := 7, geos_pg_ := 8 }, { geos_geom_ := 9, geos_pg_ := 0 }],
            calls := [] } { This := .object 0, argv := [.object 1] }
        = some (PredicateError "preparedContains", wp) ∧
      GEONODE_GEOS_BINARY_PREDICATE "contains" (fun _ _ => 1)
          { heap := [{ geos_geom_ := 7, geos_pg_ := 8 }, { geos_geom_ := 9, geos_pg_ := 0 }],
            calls := [] } { This := .object 0, argv := [.object 1] }
        = some (PredicateError "contains", wb)) :=
  C8_prepared_agrees_with_binary "preparedContains" "contains" (fun _ _ => 1) (fun _ _ => 1)
    { heap := [{ geos_geom_ := 7, geos_pg_ := 8 }, { geos_geom_ := 9, geos_pg_ := 0 }],
      calls := [] } (.object 0) (.object 1)
    { geos_geom_ := 7, geos_pg_ := 8 } { geos_geom_ := 9, geos_pg_ := 0 } rfl rfl rfl

/-- C9. Every wrapper generated by the macros leaves prior state unchanged, whatever the
outcome: every value that unwrapped to a Geometry before the call (the receiver and the
other Geometry among them) unwraps to the same Geometry after it, with the same geometry
handle and the same prepared handle, so any relation that held between the two handles
still holds; and when the call fails, the heap is the one from before the call: no new
Geometry wrapper was created. -/
theorem C9_prior_state_unchanged (wr : Wrapper) (w w1 : World) (args : Arguments)
    (c : Completion) (hcall : wr.call w args = some (c, w1)) :
    (∀ (v : Value) (g : Geometry), Unwrap w v = some g → Unwrap w1 v = some g) ∧
    (∀ (derived : GEOSGeometry → GEOSPreparedGeometry → Prop) (v : Value) (g : Geometry),
      Unwrap w v = some g → derived g.geos_geom_ g.geos_pg_ →
      ∃ g1, Unwrap w1 v = some g1 ∧ g1.geos_geom_ = g.geos_geom_ ∧
        g1.geos_pg_ = g.geos_pg_ ∧ derived g1.geos_geom_ g1.geos_pg_) ∧
    (c.isThrow → w1.heap = w.heap) := by
  have key : (∃ extra, w1.heap = w.heap ++ extra) ∧ (c.isThrow → w1.heap = w.heap) := by
    cases wr <;>
      simp only [Wrapper.call, GEONODE_GEOS_UNARY_TOPOLOGY,
        GEONODE_GEOS_UNARY_TOPOLOGY_TOLERANCE, GEONODE_GEOS_BINARY_TOPOLOGY,
        GEONODE_GEOS_UNARY_PREDICATE, GEONODE_GEOS_BINARY_PREDICATE,
        GEONODE_GEOS_BINARY_PREDICATE_TOLERANCE, GEONODE_GEOS_PREPARED_GEOM_PREDICATE]
        at hcall <;>
      repeat' split at hcall
    all_goals
      simp at hcall
    all_goals
      obtain ⟨hc, hw⟩ := hcall
      subst hc
      subst hw
    all_goals
      first
      | exact ⟨⟨[], (List.append_nil w.heap).symm⟩, fun _ => rfl⟩
      | exact ⟨⟨[_], rfl⟩, fun h => False.elim h⟩
  obtain ⟨⟨extra, hext⟩, hthrow⟩ := key
  refine ⟨fun v g hv => Unwrap_heap_append w w1 extra hext v g hv, ?_, hthrow⟩
  intro derived v g hv hd
  exact ⟨g, Unwrap_heap_append w w1 extra hext v g hv, rfl, rfl, hd⟩

/-- C9, at the union wrapper in the sample world with an engine that answers the null
pointer: the call fails, the receiver still unwraps to the Geometry it was, and the heap
is the one from before the call. -/
theorem C9_prior_state_unchanged_witness :
    Wrapper.call (.binaryTopology "union" (fun _ _ => NULL)) sampleWorld
        { This := .object 0, argv := [.object 1] }
      = some (.threw "couldn't get union", sampleWorld.record (.binary 7 9)) ∧
    Unwrap (sampleWorld.record (.binary 7 9)) (.object 0)
      = some { geos_geom_ := 7, geos_pg_ := NULL } ∧
    (sampleWorld.record (.binary 7 9)).heap = sampleWorld.heap :=
  ⟨rfl,
   (C9_prior_state_unchanged (.binaryTopology "union" (fun _ _ => NULL)) sampleWorld
      (sampleWorld.record (.binary 7 9)) { This := .object 0, argv := [.object 1] }
      (.threw "couldn't get union") rfl).1 (.object 0) { geos_geom_ := 7, geos_pg_ := NULL } rfl,
   (C9_prior_state_unchanged (.binaryTopology "union" (fun _ _ => NULL)) sampleWorld
      (sampleWorld.record (.binary 7 9)) { This := .object 0, argv := [.object 1] }
      (.threw "couldn't get union") rfl).2.2 trivial⟩

/-- C10. For each of the four predicate wrappers, called on wrapped Geometries with the
argument count it requires, and every byte r in 0..255 the engine function returns: the
call fails exactly when r is 2 and returns false exactly when r is 0; every other byte
(1, and also 3..255) comes back as the boolean true, not as an error. -/
theorem C10_predicate_byte_mapping (jsmethod : String) (w : World) (args : Arguments)
    (geom : Geometry) (r : Nat) (hThis : Unwrap w args.This = some geom) (hr : r < 256) :
    (∀ geosfn : GEOSGeometry → Nat, geosfn geom.geos_geom_ = r →
      ByteContract r (GEONODE_GEOS_UNARY_PREDICATE jsmethod geosfn w args)) ∧
    (∀ (geosfn : GEOSGeometry → GEOSGeometry → Nat) (other : Geometry),
      args.Length = 1 → Unwrap w (args.get 0) = some other →
      geosfn geom.geos_geom_ other.geos_geom_ = r →
      ByteContract r (GEONODE_GEOS_BINARY_PREDICATE jsmethod geosfn w args)) ∧
    (∀ (geosfn : GEOSGeometry → GEOSGeometry → Double → Nat) (other : Geometry),
      args.Length = 2 → Unwrap w (args.get 0) = some other →
      geosfn geom.geos_geom_ other.geos_geom_ (args.get 1).NumberValue = r →
      ByteContract r (GEONODE_GEOS_BINARY_PREDICATE_TOLERANCE jsmethod geosfn w args)) ∧
    (∀ (geosfn : GEOSPreparedGeometry → GEOSGeometry → Nat) (other : Geometry),
      args.Length = 1 → Unwrap w (args.get 0) = some other →
      geosfn geom.geos_pg_ other.geos_geom_ = r →
      ByteContract r (GEONODE_GEOS_PREPARED_GEOM_PREDICATE jsmethod geosfn w args)) := by
  have hmod : r % 256 = r := Nat.mod_eq_of_lt hr
  refine ⟨?_, ?_, ?_, ?_⟩
  · intro geosfn hcode
    simpa [GEONODE_GEOS_UNARY_PREDICATE, hThis, hcode, hmod] using
      byteContract_of_byte jsmethod r (w.record (.unary geom.geos_geom_))
  · intro geosfn other hlen hOther hcode
    simpa [GEONODE_GEOS_BINARY_PREDICATE, hThis, hOther, hlen, hcode, hmod] using
      byteContract_of_byte jsmethod r (w.record (.binary geom.geos_geom_ other.geos_geom_))
  · intro geosfn other hlen hOther hcode
    simpa [GEONODE_GEOS_BINARY_PREDICATE_TOLERANCE, hThis, hOther, hlen, hcode, hmod] using
      byteContract_of_byte jsmethod r
        (w.record (.binaryTolerance geom.geos_geom_ other.geos_geom_
          (args.get 1).NumberValue))
  · intro geosfn other hlen hOther hcode
    simpa [GEONODE_GEOS_PREPARED_GEOM_PREDICATE, hThis, hOther, hlen, hcode, hmod] using
      byteContract_of_byte jsmethod r (w.record (.prepared geom.geos_pg_ other.geos_geom_))

/-- C10, at the is-valid wrapper in the sample world with an engine that answers 3, a byte
outside the tri-state range: the call returns true. -/
theorem C10_predicate_byte_mapping_witness :
    GEONODE_GEOS_UNARY_PREDICATE "isValid" (fun _ => 3) sampleWorld
        { This := .object 0, argv := [] }
      = some (.returned (.boolean true), sampleWorld.record (.unary 7)) ∧
    ByteContract 3 (GEONODE_GEOS_UNARY_PREDICATE "isValid" (fun _ => 3) sampleWorld
        { This := .object 0, argv := [] }) :=
  ⟨rfl, (C10_predicate_byte_mapping "isValid" sampleWorld { This := .object 0, argv := [] }
      { geos_geom_ := 7, geos_pg_ := NULL } 3 rfl (by decide)).1 (fun _ => 3) rfl⟩

end Geonode
